import Mathlib

/-!
Shallow embedding of `pkg/cluster/managed.go`: the managed-datastore
lifecycle of a k3s cluster node.  Driver calls, marker-file operations and
channel events are made explicit as traces so that call counts and ordering
can be stated; machine effects (goroutines, timers) are modelled as
deterministic schedules of the outcomes the code branches on.
-/

namespace ManagedCluster

/-! ### Driver resolver (`assignManagedDriver`) -/

/-- A registered managed driver, as seen by the resolver: its endpoint name
and the outcome its `IsInitialized(ctx, config)` call produces for the
configuration at hand. -/
structure Driver where
  endpointName : String
  isInit : Except String Bool

/-- The driver registry: `managed.Registered()` (an ordered list) and
`managed.Default()` (the endpoint name of the designated default driver). -/
structure Registry where
  drivers : List Driver
  defaultName : String

/-- The node configuration fields the resolver reads. -/
structure Config where
  endpoint : String
  clusterInit : Bool
  token : String
  joinURL : String

/-- `strings.SplitN(endpoint, ":", 2)[0]`: the part of the configured
endpoint before the first colon (the whole string when there is none). -/
def endpointTypeOf (cfg : Config) : String :=
  ⟨cfg.endpoint.data.takeWhile (fun c => c != ':')⟩

/-- The first loop of `assignManagedDriver`: probe `IsInitialized` on each
driver in registration order.  Returns the first error, or the first driver
reporting initialized, together with the number of probes performed. -/
def scanInitDrivers : List Driver → Option String × Option Driver × Nat
  | [] => (none, none, 0)
  | d :: ds =>
    match d.isInit with
    | .error e => (some e, none, 1)
    | .ok true => (none, some d, 1)
    | .ok false =>
      ((scanInitDrivers ds).1, (scanInitDrivers ds).2.1, (scanInitDrivers ds).2.2 + 1)

/-- The second loop: first driver whose `EndpointName()` equals the
endpoint type. -/
def findByEndpointName (ds : List Driver) (t : String) : Option Driver :=
  ds.find? (fun d => t == d.endpointName)

/-- The third loop: first driver whose `EndpointName()` equals
`managed.Default()`. -/
def findDefaultDriver (reg : Registry) : Option Driver :=
  reg.drivers.find? (fun d => d.endpointName == reg.defaultName)

/-- The resolver outcome: the returned error, the driver bound to
`c.managedDB` (none when it stays nil), and how many `IsInitialized`
probes were made. -/
structure ResolveResult where
  err : Option String
  bound : Option Driver
  probes : Nat

/-- `assignManagedDriver`: initialized-on-disk precedence, then explicit
endpoint-name match, then default driver on bootstrap, else no binding. -/
def assignManagedDriver (reg : Registry) (cfg : Config) : ResolveResult :=
  match scanInitDrivers reg.drivers with
  | (some e, _, n) => ⟨some e, none, n⟩
  | (none, some d, n) => ⟨none, some d, n⟩
  | (none, none, n) =>
    match findByEndpointName reg.drivers (endpointTypeOf cfg) with
    | some d => ⟨none, some d, n⟩
    | none =>
      if cfg.endpoint = "" ∧ (cfg.clusterInit = true ∨ (cfg.token ≠ "" ∧ cfg.joinURL ≠ "")) then
        match findDefaultDriver reg with
        | some d => ⟨none, some d, n⟩
        | none => ⟨none, none, n⟩
      else ⟨none, none, n⟩

/-! ### Lifecycle coordinator (`start`) -/

/-- The outcome of `os.Stat(resetFile)` as the code discriminates it:
success, an error satisfying `os.IsNotExist`, or any other error. -/
inductive StatOutcome
  | ok
  | errNotExist
  | errOther (msg : String)
deriving DecidableEq

/-- The file-system state `start` touches: whether the reset marker file
exists. -/
structure FS where
  markerPresent : Bool
deriving DecidableEq

/-- `os.Stat` on the marker path; `inj` injects an OS failure other than
not-exist (permission error and the like). -/
def statMarker (fs : FS) (inj : Option String) : StatOutcome :=
  match inj with
  | some m => .errOther m
  | none => if fs.markerPresent then .ok else .errNotExist

/-- `os.Remove(resetFile)`: the marker is gone afterwards; a missing file
is not an error (the code ignores the result). -/
def removeMarker (_fs : FS) : FS :=
  { markerPresent := false }

/-- Externally visible calls made by `start`, in order. -/
inductive StartEvent
  | resetCall
  | removeCall
  | startCall
deriving DecidableEq

/-- The errors `start` can return. -/
inductive StartError
  | statErr (msg : String)
  | alreadyReset (msg : String)
  | resetFailed (msg : String)
  | startFailed (msg : String)
deriving DecidableEq

/-- The message of the fatal configuration error returned when the reset
marker already exists. -/
def resetAlreadyPerformedMsg (prog resetFile : String) : String :=
  "cluster-reset was successfully performed, please remove the cluster-reset flag and start "
    ++ prog
    ++ " normally, if you need to perform another cluster reset, you must first manually delete the "
    ++ resetFile ++ " file"

/-- The environment of one `start` call: whether `c.managedDB` is bound,
the `ClusterReset` flag, the marker path, and the outcomes of the stat,
`Reset` and `Start` calls the code may make. -/
structure StartEnv where
  hasDriver : Bool
  clusterReset : Bool
  resetFile : String
  statInj : Option String
  resetErr : Option String
  startErr : Option String

/-- `start`: returns the error (none on success), the ordered trace of
driver and file-system calls, and the final file-system state. -/
def start (env : StartEnv) (fs : FS) : Option StartError × List StartEvent × FS :=
  if env.hasDriver = false then
    (none, [], fs)
  else if env.clusterReset = true then
    match statMarker fs env.statInj with
    | .ok =>
      (some (.alreadyReset (resetAlreadyPerformedMsg "k3s" env.resetFile)), [], fs)
    | .errOther m => (some (.statErr m), [], fs)
    | .errNotExist =>
      match env.resetErr with
      | some m => (some (.resetFailed m), [.resetCall], fs)
      | none =>
        match env.startErr with
        | some m =>
          (some (.startFailed m), [.resetCall, .removeCall, .startCall], removeMarker fs)
        | none => (none, [.resetCall, .removeCall, .startCall], removeMarker fs)
  else
    match env.startErr with
    | some m => (some (.startFailed m), [.removeCall, .startCall], removeMarker fs)
    | none => (none, [.removeCall, .startCall], removeMarker fs)

/-! ### Route registrar (`initClusterDB`) -/

/-- The datastore configuration (`endpoint.Config`): the endpoint string
plus the remaining fields, collapsed into one string, which the overwrite
`endpoint.Config{Endpoint: name}` zeroes. -/
structure DatastoreConfig where
  endpoint : String
  extra : String
deriving DecidableEq

/-- `strings.HasPrefix(endpoint, name + "://")`. -/
def schemeMatches (name endpoint : String) : Bool :=
  (name ++ "://").data.isPrefixOf endpoint.data

/-- `initClusterDB`: with no driver the handler passes through unchanged;
otherwise the endpoint is normalized and `Register` is called, its result
and error returned verbatim.  Handlers are opaque (`Nat`). -/
def initClusterDB (driverName : Option String)
    (register : DatastoreConfig → Nat → Except String Nat)
    (ds : DatastoreConfig) (handler : Nat) : Except String Nat × DatastoreConfig :=
  match driverName with
  | none => (.ok handler, ds)
  | some name =>
    let ds2 := if schemeMatches name ds.endpoint then ds
               else { endpoint := name, extra := "" }
    (register ds2 handler, ds2)

/-! ### Readiness prober (`testClusterDB`) -/

/-- Events of the prober goroutine, in order: outcomes of `Test` calls,
how each retry wait ended, and the deferred `close(result)`. -/
inductive ProbeStep
  | testFail
  | testOk
  | waitElapsed
  | waitCancelled
  | chanClosed
deriving DecidableEq

/-- The schedule the goroutine runs against: the outcome of the k-th
`Test(ctx)` call, and whether `ctx.Done()` fires during the wait that
follows the k-th failure. -/
structure ProbeEnv where
  testErr : Nat → Option String
  cancelDuringWait : Nat → Bool

/-- The goroutine body of `testClusterDB`, unrolled for `fuel` loop
iterations starting at attempt `k`: the event trace and whether the
goroutine returned (running the deferred `close(result)`). -/
def probeLoop (env : ProbeEnv) : Nat → Nat → List ProbeStep × Bool
  | _, 0 => ([], false)
  | k, fuel + 1 =>
    match env.testErr k with
    | none => ([.testOk, .chanClosed], true)
    | some _ =>
      if env.cancelDuringWait k then
        ([.testFail, .waitCancelled, .chanClosed], true)
      else
        (.testFail :: .waitElapsed :: (probeLoop env (k + 1) fuel).1,
          (probeLoop env (k + 1) fuel).2)

/-- `testClusterDB`: with no driver the channel is closed immediately;
otherwise the goroutine runs.  The second component is the returned
error value. -/
def testClusterDB (hasDriver : Bool) (env : ProbeEnv) (fuel : Nat) :
    (List ProbeStep × Bool) × Option String :=
  if hasDriver then (probeLoop env 0 fuel, none)
  else (([.chanClosed], true), none)

/-! ### Membership proxy updater (`setupEtcdProxy`) -/

/-- One tick of the updater loop: on a `GetMembersClientURLs` error the
address set is untouched and `Update` is not called; on success `Update`
is called with the fresh list, which replaces the set.  The second
component lists the `Update` calls made this tick. -/
def etcdProxyCycle (r : Except String (List String)) (s : Option (List String)) :
    Option (List String) × List (List String) :=
  match r with
  | .error _ => (s, [])
  | .ok urls => (some urls, [urls])

/-- The updater loop run for `n` ticks starting at tick `k`: final address
set and the chronological list of `Update` call arguments. -/
def proxyLoopFrom (fetch : Nat → Except String (List String)) :
    Nat → Nat → Option (List String) → Option (List String) × List (List String)
  | _, 0, s => (s, [])
  | k, n + 1, s =>
    ((proxyLoopFrom fetch (k + 1) n (etcdProxyCycle (fetch k) s).1).1,
      (etcdProxyCycle (fetch k) s).2
        ++ (proxyLoopFrom fetch (k + 1) n (etcdProxyCycle (fetch k) s).1).2)

/-- `setupEtcdProxy`: no driver bound means no background task (no ticks);
otherwise the loop runs. -/
def setupEtcdProxy (hasDriver : Bool) (fetch : Nat → Except String (List String))
    (n : Nat) (s : Option (List String)) : Option (List String) × List (List String) :=
  if hasDriver then proxyLoopFrom fetch 0 n s else (s, [])

/-! ### Resolver lemmas -/

/-- When every driver's `IsInitialized` reports false without error, the
first loop probes them all and binds nothing. -/
theorem scanInitDrivers_all_false : ∀ (ds : List Driver),
    (∀ d ∈ ds, d.isInit = .ok false) →
    scanInitDrivers ds = (none, none, ds.length)
  | [], _ => rfl
  | d :: ds, h => by
    have hd : d.isInit = .ok false := h d (List.mem_cons_self d ds)
    have ih := scanInitDrivers_all_false ds (fun d2 hm => h d2 (List.mem_cons_of_mem d hm))
    simp [scanInitDrivers, hd, ih]

/-- When the first `i` drivers report false and driver `i` reports
initialized, the first loop binds driver `i` after exactly `i + 1`
probes. -/
theorem scanInitDrivers_first_true : ∀ (ds : List Driver) (i : Nat) (h : i < ds.length),
    (∀ d ∈ ds.take i, d.isInit = .ok false) →
    ds[i].isInit = .ok true →
    scanInitDrivers ds = (none, some ds[i], i + 1)
  | [], i, h, _, _ => absurd h (by simp)
  | d :: ds, 0, _, _, hi => by
    simp only [List.getElem_cons_zero] at hi ⊢
    simp [scanInitDrivers, hi]
  | d :: ds, i + 1, h, hprev, hi => by
    have hd : d.isInit = .ok false := by
      apply hprev d
      simp [List.take_succ_cons]
    have hlt : i < ds.length := Nat.lt_of_succ_lt_succ (by simpa using h)
    have ih := scanInitDrivers_first_true ds i hlt
      (fun d2 hm => hprev d2 (by simp [List.take_succ_cons, hm]))
      (by simpa using hi)
    simp only [List.getElem_cons_succ]
    simp [scanInitDrivers, hd, ih]

/-- When the first `i` drivers report false and driver `i`'s probe
errors, the first loop stops with that error after `i + 1` probes. -/
theorem scanInitDrivers_first_error : ∀ (ds : List Driver) (i : Nat) (h : i < ds.length)
    (e : String),
    (∀ d ∈ ds.take i, d.isInit = .ok false) →
    ds[i].isInit = .error e →
    scanInitDrivers ds = (some e, none, i + 1)
  | [], i, h, _, _, _ => absurd h (by simp)
  | d :: ds, 0, _, e, _, hi => by
    simp only [List.getElem_cons_zero] at hi
    simp [scanInitDrivers, hi]
  | d :: ds, i + 1, h, e, hprev, hi => by
    have hd : d.isInit = .ok false := by
      apply hprev d
      simp [List.take_succ_cons]
    have hlt : i < ds.length := Nat.lt_of_succ_lt_succ (by simpa using h)
    have ih := scanInitDrivers_first_error ds i hlt e
      (fun d2 hm => hprev d2 (by simp [List.take_succ_cons, hm]))
      (by simpa using hi)
    simp [scanInitDrivers, hd, ih]

/-- C4: the resolver binds the first driver (in registration order) whose
`IsInitialized` reports true, probing exactly the drivers up to and
including it; only when every probe reports false does it match the part
of the configured endpoint before the first colon against the drivers'
endpoint names, in order, binding the first exact match. -/
theorem assignManagedDriver_precedence (reg : Registry) (cfg : Config) :
    (∀ (i : Nat) (h : i < reg.drivers.length),
      (∀ d ∈ reg.drivers.take i, d.isInit = .ok false) →
      reg.drivers[i].isInit = .ok true →
      assignManagedDriver reg cfg = ⟨none, some reg.drivers[i], i + 1⟩) ∧
    ((∀ d ∈ reg.drivers, d.isInit = .ok false) →
      ∀ d, findByEndpointName reg.drivers (endpointTypeOf cfg) = some d →
      assignManagedDriver reg cfg = ⟨none, some d, reg.drivers.length⟩) := by
  constructor
  · intro i h hprev hi
    have hfi := scanInitDrivers_first_true reg.drivers i h hprev hi
    simp [assignManagedDriver, hfi]
  · intro hall d hd
    have hfi := scanInitDrivers_all_false reg.drivers hall
    simp [assignManagedDriver, hfi, hd]

/-- C5: when a driver's `IsInitialized` probe errors and no earlier driver
reported initialized, the resolver returns that error and binds no driver,
whatever the later drivers, the endpoint, or the default would have
yielded. -/
theorem assignManagedDriver_fail_fast (reg : Registry) (cfg : Config) (i : Nat)
    (h : i < reg.drivers.length) (e : String)
    (hprev : ∀ d ∈ reg.drivers.take i, d.isInit = .ok false)
    (herr : reg.drivers[i].isInit = .error e) :
    assignManagedDriver reg cfg = ⟨some e, none, i + 1⟩ := by
  have hfi := scanInitDrivers_first_error reg.drivers i h e hprev herr
  simp [assignManagedDriver, hfi]

/-- C6: with no driver initialized on disk and no endpoint-name match,
an empty endpoint together with cluster-init or a full join token/URL
pair binds the registry's designated default driver; otherwise no driver
is bound and no error is returned. -/
theorem assignManagedDriver_default (reg : Registry) (cfg : Config) :
    ((∀ d ∈ reg.drivers, d.isInit = .ok false) →
      findByEndpointName reg.drivers (endpointTypeOf cfg) = none →
      cfg.endpoint = "" →
      (cfg.clusterInit = true ∨ (cfg.token ≠ "" ∧ cfg.joinURL ≠ "")) →
      ∀ d, findDefaultDriver reg = some d →
      assignManagedDriver reg cfg = ⟨none, some d, reg.drivers.length⟩) ∧
    ((∀ d ∈ reg.drivers, d.isInit = .ok false) →
      findByEndpointName reg.drivers (endpointTypeOf cfg) = none →
      ¬(cfg.endpoint = "" ∧ (cfg.clusterInit = true ∨ (cfg.token ≠ "" ∧ cfg.joinURL ≠ ""))) →
      assignManagedDriver reg cfg = ⟨none, none, reg.drivers.length⟩) := by
  constructor
  · intro hall hmatch hemp hboot d hdef
    have hfi := scanInitDrivers_all_false reg.drivers hall
    simp only [assignManagedDriver, hfi, hmatch]
    rw [if_pos ⟨hemp, hboot⟩, hdef]
  · intro hall hmatch hcond
    have hfi := scanInitDrivers_all_false reg.drivers hall
    simp only [assignManagedDriver, hfi, hmatch]
    rw [if_neg hcond]

/-! ### Lifecycle theorems -/

/-- C1: with a driver bound, cluster-reset requested and the reset marker
present (stat succeeding), `start` returns the fatal configuration error
carrying the remediation message, makes no `Reset` call and no `Start`
call, and leaves the file system untouched. -/
theorem start_marker_present_rejects (env : StartEnv) (fs : FS)
    (hd : env.hasDriver = true) (hr : env.clusterReset = true)
    (hm : fs.markerPresent = true) (hs : env.statInj = none) :
    start env fs =
      (some (.alreadyReset (resetAlreadyPerformedMsg "k3s" env.resetFile)), [], fs) := by
  simp [start, statMarker, hd, hr, hm, hs]

/-- C3: with a driver bound, cluster-reset requested, the marker absent
and `Reset` succeeding, `start` performs exactly one `Reset` call, then
the marker removal, then exactly one `Start` call, in that order; after
the removal a stat of the marker reports not-exist. -/
theorem start_reset_success_path (env : StartEnv) (fs : FS)
    (hd : env.hasDriver = true) (hr : env.clusterReset = true)
    (hm : fs.markerPresent = false) (hs : env.statInj = none)
    (hreset : env.resetErr = none) :
    (start env fs).2.1 = [.resetCall, .removeCall, .startCall] ∧
    (start env fs).2.2.markerPresent = false ∧
    statMarker (start env fs).2.2 none = .errNotExist := by
  cases hstart : env.startErr <;>
    simp [start, statMarker, removeMarker, hd, hr, hm, hs, hreset, hstart]

/-- C9: with a driver bound and cluster-reset not requested, `start`
still removes the reset marker before the `Start` call: the trace is the
removal followed by exactly one `Start` call, and the marker is absent
afterwards whatever its prior state. -/
theorem start_normal_clears_marker (env : StartEnv) (fs : FS)
    (hd : env.hasDriver = true) (hr : env.clusterReset = false) :
    (start env fs).2.1 = [.removeCall, .startCall] ∧
    (start env fs).2.2.markerPresent = false := by
  cases hstart : env.startErr <;> simp [start, removeMarker, hd, hr, hstart]

/-- C8: with no driver bound `initClusterDB` returns the handler
unchanged with no error; with a driver bound and the endpoint not
starting with the driver's scheme, the datastore configuration is
overwritten to just the driver's endpoint name (other detail dropped)
and `Register` is called on it, its result returned verbatim. -/
theorem initClusterDB_spec (register : DatastoreConfig → Nat → Except String Nat)
    (ds : DatastoreConfig) (handler : Nat) :
    (initClusterDB none register ds handler = (.ok handler, ds)) ∧
    (∀ name, schemeMatches name ds.endpoint = false →
      initClusterDB (some name) register ds handler =
        (register ⟨name, ""⟩ handler, ⟨name, ""⟩)) := by
  refine ⟨rfl, ?_⟩
  intro name hpre
  simp [initClusterDB, hpre]

/-! ### Readiness prober theorems -/

/-- Whenever the prober goroutine returns, the deferred close has run:
the trace contains the channel-close event. -/
theorem probeLoop_done_closed : ∀ (env : ProbeEnv) (fuel k : Nat),
    (probeLoop env k fuel).2 = true →
    ProbeStep.chanClosed ∈ (probeLoop env k fuel).1
  | env, 0, k, hdone => by simp [probeLoop] at hdone
  | env, fuel + 1, k, hdone => by
    cases htest : env.testErr k with
    | none => simp [probeLoop, htest]
    | some m =>
      cases hcancel : env.cancelDuringWait k with
      | true => simp [probeLoop, htest, hcancel]
      | false =>
        have hdone2 : (probeLoop env (k + 1) fuel).2 = true := by
          simpa [probeLoop, htest, hcancel] using hdone
        have ih := probeLoop_done_closed env fuel (k + 1) hdone2
        simp [probeLoop, htest, hcancel, ih]

/-- When every `Test` up to attempt `k + n` fails and cancellation first
fires during the wait after attempt `k + n`, the goroutine returns, the
deferred close runs, and no successful `Test` ever appears. -/
theorem probeLoop_cancelled : ∀ (env : ProbeEnv) (n k fuel : Nat),
    (∀ i, i ≤ n → env.testErr (k + i) ≠ none) →
    env.cancelDuringWait (k + n) = true →
    (∀ i, i < n → env.cancelDuringWait (k + i) = false) →
    n < fuel →
    (probeLoop env k fuel).2 = true ∧
    ProbeStep.chanClosed ∈ (probeLoop env k fuel).1 ∧
    ProbeStep.testOk ∉ (probeLoop env k fuel).1
  | env, 0, k, fuel, hfail, hcancel, _, hfuel => by
    obtain ⟨m, rfl⟩ : ∃ m, fuel = m + 1 := ⟨fuel - 1, by omega⟩
    have h0 : env.testErr k ≠ none := by simpa using hfail 0 (Nat.le_refl 0)
    cases htest : env.testErr k with
    | none => exact absurd htest h0
    | some msg =>
      have hc : env.cancelDuringWait k = true := by simpa using hcancel
      simp [probeLoop, htest, hc]
  | env, n + 1, k, fuel, hfail, hcancel, hnone, hfuel => by
    obtain ⟨m, rfl⟩ : ∃ m, fuel = m + 1 := ⟨fuel - 1, by omega⟩
    have h0 : env.testErr k ≠ none := by simpa using hfail 0 (Nat.zero_le _)
    cases htest : env.testErr k with
    | none => exact absurd htest h0
    | some msg =>
      have hc0 : env.cancelDuringWait k = false := by
        simpa using hnone 0 (Nat.succ_pos n)
      have ih := probeLoop_cancelled env n (k + 1) m
        (fun i hi => by
          have heq : k + 1 + i = k + (i + 1) := by omega
          rw [heq]
          exact hfail (i + 1) (Nat.succ_le_succ hi))
        (by
          have heq : k + 1 + n = k + (n + 1) := by omega
          rw [heq]
          exact hcancel)
        (fun i hi => by
          have heq : k + 1 + i = k + (i + 1) := by omega
          rw [heq]
          exact hnone (i + 1) (Nat.succ_lt_succ hi))
        (by omega)
      refine ⟨?_, ?_, ?_⟩ <;> simp [probeLoop, htest, hc0, ih.1, ih.2.1, ih.2.2]

/-- C10: `testClusterDB` never returns an error, driver bound or not,
and whenever its background task terminates — for any reason — the
returned channel has been closed. -/
theorem testClusterDB_no_error_closes (hasDriver : Bool) (env : ProbeEnv) (fuel : Nat) :
    (testClusterDB hasDriver env fuel).2 = none ∧
    ((testClusterDB hasDriver env fuel).1.2 = true →
      ProbeStep.chanClosed ∈ (testClusterDB hasDriver env fuel).1.1) := by
  cases hasDriver with
  | false => simp [testClusterDB]
  | true =>
    refine ⟨by simp [testClusterDB], ?_⟩
    intro hdone
    have h := probeLoop_done_closed env fuel 0 (by simpa [testClusterDB] using hdone)
    simpa [testClusterDB] using h

/-- A probe schedule whose `Test` calls always fail and where
cancellation fires during the first retry wait. -/
def cancelEnv : ProbeEnv :=
  ⟨fun _ => some "connection refused", fun _ => true⟩

/-- C2 counterexample: with cancellation requested during the first
retry wait, before any `Test` success, the task terminates — but the
channel IS closed (the deferred close runs), refuting "the channel is
never closed". -/
theorem testClusterDB_cancel_closes_channel :
    (testClusterDB true cancelEnv 5).1.2 = true ∧
    ProbeStep.chanClosed ∈ (testClusterDB true cancelEnv 5).1.1 ∧
    ProbeStep.testOk ∉ (testClusterDB true cancelEnv 5).1.1 := by
  refine ⟨rfl, ?_, ?_⟩ <;> decide

/-- C2 (amended): cancellation during a retry wait before any `Test`
success terminates the background task with no success ever observed,
and the deferred close still closes the one-shot channel on the way
out. -/
theorem testClusterDB_cancel_closes_anyway (env : ProbeEnv) (n fuel : Nat)
    (hfail : ∀ i, i ≤ n → env.testErr i ≠ none)
    (hcancel : env.cancelDuringWait n = true)
    (hnone : ∀ i, i < n → env.cancelDuringWait i = false)
    (hfuel : n < fuel) :
    (testClusterDB true env fuel).1.2 = true ∧
    ProbeStep.chanClosed ∈ (testClusterDB true env fuel).1.1 ∧
    ProbeStep.testOk ∉ (testClusterDB true env fuel).1.1 := by
  have h := probeLoop_cancelled env n 0 fuel
    (fun i hi => by simpa using hfail i hi)
    (by simpa using hcancel)
    (fun i hi => by simpa using hnone i hi) hfuel
  simpa [testClusterDB] using h

/-! ### Membership proxy updater theorems -/

/-- Peeling the last tick off the updater loop: `n + 1` ticks are `n`
ticks followed by one cycle against the state they produced. -/
theorem proxyLoopFrom_succ (fetch : Nat → Except String (List String)) :
    ∀ (n k : Nat) (s : Option (List String)),
    proxyLoopFrom fetch k (n + 1) s =
      ((etcdProxyCycle (fetch (k + n)) (proxyLoopFrom fetch k n s).1).1,
        (proxyLoopFrom fetch k n s).2
          ++ (etcdProxyCycle (fetch (k + n)) (proxyLoopFrom fetch k n s).1).2) := by
  intro n
  induction n with
  | zero => intro k s; simp [proxyLoopFrom]
  | succ n ih =>
    intro k s
    have h1 : proxyLoopFrom fetch k (n + 1 + 1) s
        = ((proxyLoopFrom fetch (k + 1) (n + 1) (etcdProxyCycle (fetch k) s).1).1,
            (etcdProxyCycle (fetch k) s).2
              ++ (proxyLoopFrom fetch (k + 1) (n + 1) (etcdProxyCycle (fetch k) s).1).2) := rfl
    have h2 : proxyLoopFrom fetch k (n + 1) s
        = ((proxyLoopFrom fetch (k + 1) n (etcdProxyCycle (fetch k) s).1).1,
            (etcdProxyCycle (fetch k) s).2
              ++ (proxyLoopFrom fetch (k + 1) n (etcdProxyCycle (fetch k) s).1).2) := rfl
    have h3 := ih (k + 1) (etcdProxyCycle (fetch k) s).1
    have heq : k + 1 + n = k + (n + 1) := by omega
    rw [h1, h3, heq, h2]
    simp [List.append_assoc]

/-- C7: with a driver bound, an updater cycle whose
`GetMembersClientURLs` fails makes no `Update` call and leaves the
address set unchanged; a cycle that succeeds makes exactly one `Update`
call, with the fresh list, which replaces the address set. -/
theorem setupEtcdProxy_fail_open (fetch : Nat → Except String (List String)) (n : Nat)
    (s : Option (List String)) :
    (∀ e, fetch n = .error e →
      setupEtcdProxy true fetch (n + 1) s = setupEtcdProxy true fetch n s) ∧
    (∀ urls, fetch n = .ok urls →
      (setupEtcdProxy true fetch (n + 1) s).1 = some urls ∧
      (setupEtcdProxy true fetch (n + 1) s).2 = (setupEtcdProxy true fetch n s).2 ++ [urls]) := by
  constructor
  · intro e he
    simp [setupEtcdProxy, proxyLoopFrom_succ, he, etcdProxyCycle]
  · intro urls hu
    simp [setupEtcdProxy, proxyLoopFrom_succ, hu, etcdProxyCycle]

/-! ### Concrete instances for the witnesses -/

/-- A driver reporting an uninitialized on-disk state. -/
def etcdDriver : Driver := ⟨"etcd", .ok false⟩

/-- A driver reporting an initialized on-disk state. -/
def sqliteDriver : Driver := ⟨"sqlite", .ok true⟩

/-- A driver whose probe fails. -/
def faultyDriver : Driver := ⟨"faulty", .error "disk failure"⟩

/-- An uninitialized driver with the sqlite endpoint name. -/
def quietSqlite : Driver := ⟨"sqlite", .ok false⟩

/-- A bootstrap configuration: empty endpoint, cluster-init requested. -/
def bootCfg : Config := ⟨"", true, "", ""⟩

/-- A plain configuration: empty endpoint, nothing requested. -/
def plainCfg : Config := ⟨"", false, "", ""⟩

/-- A configuration naming the etcd endpoint explicitly. -/
def namedCfg : Config := ⟨"etcd://10.0.0.1:2379", false, "", ""⟩

/-- A `start` environment: driver bound, reset requested, no injected
faults. -/
def resetEnv : StartEnv := ⟨true, true, "/db/reset-flag", none, none, none⟩

/-- A `start` environment: driver bound, no reset requested. -/
def normalEnv : StartEnv := ⟨true, false, "/db/reset-flag", none, none, none⟩

/-- A probe schedule that succeeds on the first `Test`. -/
def okEnv : ProbeEnv := ⟨fun _ => none, fun _ => false⟩

/-- A register stub for the route registrar. -/
def regStub : DatastoreConfig → Nat → Except String Nat := fun _ h => .ok (h + 1)

/-- A membership query schedule that fails on tick 1 and succeeds
elsewhere. -/
def fetchSched : Nat → Except String (List String) :=
  fun k => if k = 1 then .error "timeout" else .ok ["https://10.0.0.1:2379"]

/-! ### Witnesses -/

/-- Witness for C1: a concrete marked file system rejects the reset. -/
theorem start_marker_present_rejects_witness :
    start resetEnv ⟨true⟩ =
      (some (.alreadyReset (resetAlreadyPerformedMsg "k3s" "/db/reset-flag")), [], ⟨true⟩) :=
  start_marker_present_rejects resetEnv ⟨true⟩ rfl rfl rfl rfl

/-- Witness for C3: a concrete clean file system takes the reset path. -/
theorem start_reset_success_path_witness :
    (start resetEnv ⟨false⟩).2.1 = [.resetCall, .removeCall, .startCall] ∧
    (start resetEnv ⟨false⟩).2.2.markerPresent = false ∧
    statMarker (start resetEnv ⟨false⟩).2.2 none = .errNotExist :=
  start_reset_success_path resetEnv ⟨false⟩ rfl rfl rfl rfl rfl

/-- Witness for C9: a concrete normal start clears a leftover marker. -/
theorem start_normal_clears_marker_witness :
    (start normalEnv ⟨true⟩).2.1 = [.removeCall, .startCall] ∧
    (start normalEnv ⟨true⟩).2.2.markerPresent = false :=
  start_normal_clears_marker normalEnv ⟨true⟩ rfl rfl

/-- Witness for C4: the second driver, initialized, wins after two
probes; with both uninitialized the endpoint name picks the first. -/
theorem assignManagedDriver_precedence_witness :
    assignManagedDriver ⟨[etcdDriver, sqliteDriver], "etcd"⟩ namedCfg
      = ⟨none, some sqliteDriver, 2⟩ ∧
    assignManagedDriver ⟨[etcdDriver, quietSqlite], "etcd"⟩ namedCfg
      = ⟨none, some etcdDriver, 2⟩ := by
  constructor
  · exact (assignManagedDriver_precedence ⟨[etcdDriver, sqliteDriver], "etcd"⟩ namedCfg).1
      1 (by decide)
      (by
        intro d hd
        simp [List.take_succ_cons] at hd
        subst hd
        rfl)
      rfl
  · exact (assignManagedDriver_precedence ⟨[etcdDriver, quietSqlite], "etcd"⟩ namedCfg).2
      (by
        intro d hd
        simp at hd
        rcases hd with h | h <;> (subst h; rfl))
      etcdDriver rfl

/-- Witness for C5: a failing probe on the second driver aborts
resolution before the initialized third driver is seen. -/
theorem assignManagedDriver_fail_fast_witness :
    assignManagedDriver ⟨[etcdDriver, faultyDriver, sqliteDriver], "etcd"⟩ namedCfg
      = ⟨some "disk failure", none, 2⟩ :=
  assignManagedDriver_fail_fast ⟨[etcdDriver, faultyDriver, sqliteDriver], "etcd"⟩ namedCfg
    1 (by decide) "disk failure"
    (by
      intro d hd
      simp [List.take_succ_cons] at hd
      subst hd
      rfl)
    rfl

/-- Witness for C6: bootstrap binds the default driver; a plain
configuration binds nothing and errs nothing. -/
theorem assignManagedDriver_default_witness :
    assignManagedDriver ⟨[etcdDriver, quietSqlite], "etcd"⟩ bootCfg
      = ⟨none, some etcdDriver, 2⟩ ∧
    assignManagedDriver ⟨[etcdDriver, quietSqlite], "etcd"⟩ plainCfg
      = ⟨none, none, 2⟩ := by
  constructor
  · exact (assignManagedDriver_default ⟨[etcdDriver, quietSqlite], "etcd"⟩ bootCfg).1
      (by
        intro d hd
        simp at hd
        rcases hd with h | h <;> (subst h; rfl))
      rfl rfl (Or.inl rfl) etcdDriver rfl
  · exact (assignManagedDriver_default ⟨[etcdDriver, quietSqlite], "etcd"⟩ plainCfg).2
      (by
        intro d hd
        simp at hd
        rcases hd with h | h <;> (subst h; rfl))
      rfl
      (by simp [plainCfg])

/-- Witness for C7: the failure at tick 1 preserves tick 0's state; the
success at tick 0 installs the fetched list. -/
theorem setupEtcdProxy_fail_open_witness :
    setupEtcdProxy true fetchSched 2 none = setupEtcdProxy true fetchSched 1 none ∧
    ((setupEtcdProxy true fetchSched 1 none).1 = some ["https://10.0.0.1:2379"] ∧
      (setupEtcdProxy true fetchSched 1 none).2
        = (setupEtcdProxy true fetchSched 0 none).2 ++ [["https://10.0.0.1:2379"]]) :=
  ⟨(setupEtcdProxy_fail_open fetchSched 1 none).1 "timeout" rfl,
    (setupEtcdProxy_fail_open fetchSched 0 none).2 ["https://10.0.0.1:2379"] rfl⟩

/-- Witness for C8: a concrete non-matching endpoint is overwritten and
registered. -/
theorem initClusterDB_spec_witness :
    (initClusterDB none regStub ⟨"https://10.0.0.1:2379", "tls-detail"⟩ 7
      = (.ok 7, ⟨"https://10.0.0.1:2379", "tls-detail"⟩)) ∧
    (initClusterDB (some "etcd") regStub ⟨"https://10.0.0.1:2379", "tls-detail"⟩ 7
      = (regStub ⟨"etcd", ""⟩ 7, ⟨"etcd", ""⟩)) :=
  ⟨(initClusterDB_spec regStub ⟨"https://10.0.0.1:2379", "tls-detail"⟩ 7).1,
    (initClusterDB_spec regStub ⟨"https://10.0.0.1:2379", "tls-detail"⟩ 7).2 "etcd" (by decide)⟩

/-- Witness for C10: a first-try success terminates with the channel
closed and a nil error. -/
theorem testClusterDB_no_error_closes_witness :
    (testClusterDB true okEnv 1).2 = none ∧
    ProbeStep.chanClosed ∈ (testClusterDB true okEnv 1).1.1 :=
  ⟨(testClusterDB_no_error_closes true okEnv 1).1,
    (testClusterDB_no_error_closes true okEnv 1).2 rfl⟩

/-- Witness for C2 (amended): cancellation in the first wait closes the
channel with no success observed. -/
theorem testClusterDB_cancel_closes_anyway_witness :
    (testClusterDB true cancelEnv 3).1.2 = true ∧
    ProbeStep.chanClosed ∈ (testClusterDB true cancelEnv 3).1.1 ∧
    ProbeStep.testOk ∉ (testClusterDB true cancelEnv 3).1.1 :=
  testClusterDB_cancel_closes_anyway cancelEnv 0 3
    (fun _ _ => by simp [cancelEnv]) rfl
    (fun i hi => absurd hi (Nat.not_lt_zero i)) (by decide)

end ManagedCluster
